import Mathlib

/-!
# Verification of the vinci-proxy/vinci core against its specification

Shallow embedding of the vinxi reverse-proxy core (Go) in Lean 4:

* `src/rule/rules.go`      → namespace `VinxiProxy.rule`
* `src/vinxi.go`           → namespace `VinxiProxy` (Vinxi, New, ServeHTTP)
* `src/manager/api.go`     → namespace `VinxiProxy.manager`
* `src/unnamed/part_000`   → namespace `VinxiProxy.manager0`
  (an alternate file of the Go `manager` package)

Packages of the repository that are not under `src/` (config, plugin,
layer, forward) are modelled from the specification; each such
definition carries a doc comment starting `Modelled from the spec:`.

Go maps are embedded as association lists whose insertion removes the
previous binding of the key (so keys stay unique, matching map
semantics); a Go `panic` is embedded as an explicit result constructor;
Go functions returning `(value, err)` become `Except`-valued functions.
-/

namespace VinxiProxy

/-- Modelled from the spec: `config.Config` (package `config`, not under
`src/`) is a generic configuration object — a key/value map — that the
core only passes around; embedded as an association list of strings. -/
abbrev Config := List (String × String)

/-- Association-list lookup, embedding a Go map read: first binding of
the key wins (insertions below keep keys unique). -/
def lookupA {β : Type} (k : String) : List (String × β) → Option β
  | [] => none
  | (k', v) :: rest => if k = k' then some v else lookupA k rest

namespace rule

/-- Embeds `rule.Field` (rules.go lines 27-33): a declared config field
supported by a rule. (`example` is a Lean keyword, hence `exampleVal`.) -/
structure Field where
  name : String
  type : String
  description : String
  mandatory : Bool
  exampleVal : String
deriving DecidableEq, Repr

/-- Embeds `rule.Params` (rules.go line 24). -/
abbrev Params := List Field

/-- Modelled from the spec: the `rule.Rule` interface is declared in a
file of the `rule` package not under `src/`; §3 and the accessors used
by `createRule` (api.go lines 229-236) give it an ID, a registry name,
a description and a configuration object. -/
structure Rule where
  id : String
  name : String
  description : String
  config : Config
deriving DecidableEq, Repr

/-- Embeds `rule.Factory` (rules.go line 11): `func(config.Config) Rule`. -/
abbrev Factory := Config → Rule

/-- Embeds `rule.Info` (rules.go lines 16-21). -/
structure Info where
  name : String
  description : String
  params : Params
  factory : Factory

/-- The global store `rule.Rules` (rules.go line 8), a Go map embedded
as an association list with unique keys. -/
abbrev Registry := List (String × Info)

/-- Embeds `rule.Register` (rules.go lines 36-38): Go map assignment
`Rules[rule.Name] = rule`, which replaces any previous binding. -/
def Register (r : Info) (m : Registry) : Registry :=
  (r.name, r) :: m.filter (fun p => p.1 ≠ r.name)

/-- Embeds `rule.Exists` (rules.go lines 64-67). -/
def Exists (name : String) (m : Registry) : Bool :=
  (lookupA name m).isSome

/-- Embeds `rule.Get` (rules.go lines 50-56): `none` embeds the `nil`
factory returned when the name is unregistered. -/
def Get (name : String) (m : Registry) : Option Factory :=
  match lookupA name m with
  | some r => some r.factory
  | none => none

/-- Embeds `rule.GetInfo` (rules.go lines 59-61); the Go map read
yields the zero `Info` when the name is absent, embedded as `none`. -/
def GetInfo (name : String) (m : Registry) : Option Info :=
  lookupA name m

/-- Result of `rule.Init`: Go's `panic` is embedded as an explicit
`panicked` constructor carrying the panic message. -/
inductive InitResult where
  | panicked (msg : String)
  | ok (r : Rule)

/-- Embeds `rule.Init` (rules.go lines 42-47): panics when the name is
not registered, otherwise applies the registered factory. -/
def Init (name : String) (opts : Config) (m : Registry) : InitResult :=
  if Exists name m then
    match lookupA name m with
    | some info => .ok (info.factory opts)
    | none => .panicked ("vinxi: rule \x27" ++ name ++ "\x27 does not exists.")
  else
    .panicked ("vinxi: rule \x27" ++ name ++ "\x27 does not exists.")

end rule

end VinxiProxy

namespace VinxiProxy

/-- Modelled from the spec: the `forward` package is not under `src/`;
§4.5 — the forwarder offers a configuration option to preserve the
original inbound host identity. Only this configuration surface is
needed by the claims. -/
structure Forwarder where
  passHostHeader : Bool
deriving DecidableEq, Repr

/-- Modelled from the spec: `forward.PassHostHeader(b)` is the
host-preservation option of `forward.New` (§4.5). -/
inductive ForwardOption where
  | passHostHeaderOpt (b : Bool)
deriving DecidableEq, Repr

/-- Modelled from the spec: `forward.New(opts...)` builds a forwarder
from its options and returns `(handler, error)`. -/
def forwardNew (opts : List ForwardOption) : Forwarder × Option String :=
  (opts.foldl
    (fun f o => match o with
      | .passHostHeaderOpt b => { f with passHostHeader := b })
    { passHostHeader := false }, none)

/-- Embeds `DefaultForwarder` (vinxi.go line 18):
`forward.New(forward.PassHostHeader(true))`, error discarded. -/
def DefaultForwarder : Forwarder :=
  (forwardNew [.passHostHeaderOpt true]).1

/-- Priority buckets of the layer package (§4.1: Head < Normal < Tail). -/
inductive Priority where
  | head
  | normal
  | tail
deriving DecidableEq, Repr

/-- Handlers at the granularity the claims distinguish: the built-in
router, a forwarder, or some other middleware. -/
inductive Handler where
  | router
  | forwarder (f : Forwarder)
  | other (n : Nat)
deriving DecidableEq, Repr

/-- Modelled from the spec: `layer.Layer` (package `layer`, not under
`src/`), §4.1 — handlers keyed by phase and priority in registration
order, plus at most one final handler. -/
structure Layer where
  stack : List (String × Priority × Handler)
  finalHandler : Option Handler
deriving DecidableEq, Repr

/-- Modelled from the spec: `layer.New()` — a fresh empty layer. -/
def layerNew : Layer := { stack := [], finalHandler := none }

/-- Modelled from the spec: `Layer.UsePriority(phase, priority, handler)`
registers a handler under the given phase and priority, preserving
registration order (§4.1). -/
def usePriority (phase : String) (p : Priority) (h : Handler)
    (l : Layer) : Layer :=
  { l with stack := l.stack ++ [(phase, p, h)] }

/-- Modelled from the spec: `Layer.UseFinalHandler` — at most one final
handler, last write wins (§4.1). -/
def useFinalHandler (h : Handler) (l : Layer) : Layer :=
  { l with finalHandler := some h }

/-- The `layer.RequestPhase` constant (vinxi.go line 82). -/
def RequestPhase : String := "request"

/-- A registered route: HTTP method plus path pattern (§4.4; the
`router` package is not under `src/`). -/
structure Route where
  method : String
  pattern : String
deriving DecidableEq, Repr

/-- Identity reference to a parent middleware: in `New` the router's
parent is the proxy's own root layer (vinxi.go line 80). -/
inductive ParentRef where
  | rootLayer
deriving DecidableEq, Repr

/-- Modelled from the spec: `router.Router` — the route table plus the
parent set by `SetParent` (§4.4). -/
structure Router where
  routes : List Route
  parent : Option ParentRef
deriving DecidableEq, Repr

/-- Modelled from the spec: `router.New()` — empty route table, no
parent. -/
def routerNew : Router := { routes := [], parent := none }

/-- Embeds the `Vinxi` struct (vinxi.go lines 67-74); the metadata
field (hostname/platform collection) is outside the core per §1. -/
structure Vinxi where
  layer : Layer
  router : Router
deriving DecidableEq, Repr

/-- Embeds `New` (vinxi.go lines 77-86): bind the router to the root
layer, register the router at the request-phase tail, and install the
default forwarder as final handler. -/
def New : Vinxi :=
  let v : Vinxi := { layer := layerNew, router := routerNew }
  let v := { v with router := { v.router with parent := some .rootLayer } }
  let v := { v with layer := usePriority RequestPhase .tail .router v.layer }
  let v := { v with layer := useFinalHandler (.forwarder DefaultForwarder) v.layer }
  v

/-- The URL component of a request (host and path are all the core
reads or writes). -/
structure URL where
  host : String
  path : String
deriving DecidableEq, Repr

/-- The parts of `http.Request` the core touches: the inbound Host,
the method, the URL, and the per-request context key/value store
(package `context`). -/
structure Request where
  host : String
  method : String
  url : URL
  context : List (String × String)
deriving DecidableEq, Repr

/-- Modelled from the spec: route matching (§4.4) — exact method match
or the `*` wildcard, against the request path. Pattern parameters are
not exercised by the claims (only the no-match case is used). -/
def routeMatches (r : Route) (req : Request) : Bool :=
  (r.method == req.method || r.method == "*") && r.pattern == req.url.path

/-- First matching route, in registration order. -/
def findRoute (routes : List Route) (req : Request) : Option Route :=
  routes.find? (fun r => routeMatches r req)

/-- The terminal outcome of running the request phase: dispatched to a
matched route, reached the final handler, or dropped (no final
handler). -/
inductive Terminal where
  | routed (r : Route)
  | final (h : Handler)
  | dropped
deriving DecidableEq, Repr

/-- Handlers of a phase in execution order: Head, then Normal in
registration order, then Tail (§4.1). -/
def phaseHandlers (l : Layer) (phase : String) : List Handler :=
  ((l.stack.filter (fun e => e.1 == phase && e.2.1 == Priority.head)).map
    (fun e => e.2.2)) ++
  ((l.stack.filter (fun e => e.1 == phase && e.2.1 == Priority.normal)).map
    (fun e => e.2.2)) ++
  ((l.stack.filter (fun e => e.1 == phase && e.2.1 == Priority.tail)).map
    (fun e => e.2.2))

/-- Modelled from the spec: phase execution (§4.1, §4.4) — handlers run
sequentially; the router short-circuits to a matched route and
otherwise falls through; when the chain is exhausted the final handler
runs, and only a layer without one drops the request. -/
def runHandlers (routes : List Route) (req : Request) :
    List Handler → Option Handler → Terminal
  | [], some h => .final h
  | [], none => .dropped
  | .router :: rest, fh =>
    match findRoute routes req with
    | some r => .routed r
    | none => runHandlers routes req rest fh
  | .forwarder _ :: rest, fh => runHandlers routes req rest fh
  | .other _ :: rest, fh => runHandlers routes req rest fh

/-- Run the "request" phase of a proxy's root layer on a request. -/
def runRequestPhase (v : Vinxi) (req : Request) : Terminal :=
  runHandlers v.router.routes req (phaseHandlers v.layer RequestPhase)
    v.layer.finalHandler

/-- The observable steps `ServeHTTP` performs, in order. -/
inductive Event where
  | setContext (k v : String)
  | setURLHost (h : String)
  | runPhase (phase : String)
deriving DecidableEq, Repr

/-- Embeds `ServeHTTP` (vinxi.go lines 200-207): expose the inbound
host under the context key "vinxi.host" (`context.Set`), set the URL
host to the inbound host, then run the root layer's "request" phase.
The first component is the ordered trace of these steps; the second is
the request state handed to `Layer.Run`. -/
def ServeHTTP (r : Request) : List Event × Request :=
  let r1 : Request := { r with context := ("vinxi.host", r.host) :: r.context }
  let r2 : Request := { r1 with url := { r1.url with host := r1.host } }
  ([.setContext "vinxi.host" r.host, .setURLHost r.host,
    .runPhase RequestPhase], r2)

namespace plugin

/-- Modelled from the spec: the `plugin.Plugin` interface (package
`plugin`, not under `src/`); §3 — a Plugin carries ID, display name,
description, enabled flag, configuration object and metadata object,
read through the accessors `createPlugin` uses. -/
structure Plugin where
  id : String
  name : String
  description : String
  enabled : Bool
  config : Config
  metadata : Config
deriving DecidableEq, Repr

/-- Modelled from the spec: a plugin factory takes a configuration and
returns the instance or a configuration error — in
`PluginsController.Create`, `factory(plu.Params)` returns
`(instance, err)`. -/
abbrev Factory := Config → Except String Plugin

/-- Modelled from the spec: `plugin.Info` — the catalogue entry of the
plugin registry, with the same contract as `rule.Info` (§2: two
independent registries with identical contract). -/
structure Info where
  name : String
  description : String
  params : rule.Params
  factory : Factory

/-- Modelled from the spec: the global store `plugin.Plugins`, a Go map
with the same contract as `rule.Rules`. -/
abbrev Registry := List (String × Info)

/-- Modelled from the spec: `plugin.Get`, same contract as `rule.Get` —
the registered factory, or `nil` (`none`) for an unregistered name. -/
def Get (name : String) (m : Registry) : Option Factory :=
  match lookupA name m with
  | some i => some i.factory
  | none => none

end plugin

namespace manager0

/-- Embeds `JSONPlugin` (part_000 lines 9-16). -/
structure JSONPlugin where
  id : String
  name : String
  description : String
  enabled : Bool
  config : Config
  metadata : Config
deriving DecidableEq, Repr

/-- Embeds `createPlugin` (part_000 lines 26-34): the `Enabled` field of
the literal is not assigned, so it keeps Go's zero value `false`. -/
def createPlugin (p : plugin.Plugin) : JSONPlugin :=
  { id := p.id
    name := p.name
    description := p.description
    enabled := false
    config := p.config
    metadata := p.metadata }

/-- Embeds `createPlugins` (part_000 lines 18-24): append loop over the
input plugins. -/
def createPlugins (plugins : List plugin.Plugin) : List JSONPlugin :=
  plugins.foldl (fun list p => list ++ [createPlugin p]) []

/-- The request body of `PluginsController.Create` (part_000 lines
62-65): plugin name and configuration. -/
structure CreateBody where
  name : String
  params : Config
deriving DecidableEq, Repr

/-- The response `PluginsController.Create` sends through its context.
A failed body parse returns without sending here (the parser already
replied), embedded as `parseAborted`. -/
inductive CreateOutcome where
  | parseAborted
  | badRequest (msg : String)
  | notFound (msg : String)
  | created (p : JSONPlugin)
deriving DecidableEq, Repr

/-- Embeds `PluginsController.Create` (part_000 lines 61-92). `body` is
the outcome of `ctx.ParseBody` (`none` = parse error); `plugins` is the
target set of `ctx.Manager.UsePlugin`, which is modelled from the spec
as appending the new instance (§4.3, §6). The result pairs the response
with the plugin set after the call. -/
def Create (reg : plugin.Registry) (body : Option CreateBody)
    (plugins : List plugin.Plugin) : CreateOutcome × List plugin.Plugin :=
  match body with
  | none => (.parseAborted, plugins)
  | some plu =>
    if plu.name = "" then
      (.badRequest "Missing required param: name", plugins)
    else
      match plugin.Get plu.name reg with
      | none => (.notFound "Plugin not found", plugins)
      | some factory =>
        match factory plu.params with
        | .error e => (.badRequest ("Cannot create plugin: " ++ e), plugins)
        | .ok inst => (.created (createPlugin inst), plugins ++ [inst])

end manager0

namespace manager

/-- Embeds `JSONPlugin` (api.go lines 32-39). -/
structure JSONPlugin where
  id : String
  name : String
  description : String
  enabled : Bool
  config : Config
  metadata : Config
deriving DecidableEq, Repr

/-- Embeds `createPlugin` (api.go lines 238-246): the `Enabled` field of
the literal is not assigned, so it keeps Go's zero value `false`. -/
def createPlugin (p : plugin.Plugin) : JSONPlugin :=
  { id := p.id
    name := p.name
    description := p.description
    enabled := false
    config := p.config
    metadata := p.metadata }

/-- List update at an index, embedding a Go slice element assignment
`list[i] = x`: an out-of-range index panics, embedded as `none`. -/
def setAt {α : Type} : List α → Nat → α → Option (List α)
  | [], _, _ => none
  | _ :: xs, 0, a => some (a :: xs)
  | x :: xs, n + 1, a => (setAt xs n a).map (fun ys => x :: ys)

/-- Embeds `createPlugins` (api.go lines 221-227): starts from the empty
slice `[]JSONPlugin{}` and assigns `list[i]` for each plugin of the
range loop — `none` embeds the index-out-of-range panic. -/
def createPlugins (plugins : List plugin.Plugin) : Option (List JSONPlugin) :=
  go 0 [] plugins
where
  go (i : Nat) (list : List JSONPlugin) :
      List plugin.Plugin → Option (List JSONPlugin)
    | [] => some list
    | p :: ps =>
      match setAt list i (createPlugin p) with
      | none => none
      | some list2 => go (i + 1) list2 ps

/-- Embeds the response shape of the `GET /catalog` handler (api.go
lines 91-97). -/
structure Catalog where
  rules : List rule.Info
  plugins : List plugin.Info

/-- Embeds the `GET /catalog` handler (api.go lines 80-100): collects
every value of the rule registry, then every value of the plugin
registry, by a range-append loop over each map. -/
def getCatalog (rm : rule.Registry) (pm : plugin.Registry) : Catalog :=
  { rules := rm.foldl (fun acc p => acc ++ [p.2]) []
    plugins := pm.foldl (fun acc p => acc ++ [p.2]) [] }

/-- The responses the DELETE handlers send: `SendNoContent`,
`SendError(500, msg)`, and the `SendNotFound` issued by parameter
resolution. -/
inductive HTTPResponse where
  | noContent
  | error (status : Nat) (msg : String)
  | notFound (msg : String)
deriving DecidableEq, Repr

/-- Embeds `DELETE /instances/:instance` (api.go lines 122-128) together
with the `:instance` parameter resolution. Modelled from the spec: the
routing middleware that populates `ctx.Instance` signals `NotFound`
when the ID is absent (§6); `remove` is `ctx.Manager.RemoveInstance`. -/
def deleteInstanceRoute (resolved : Option String)
    (remove : String → Bool) : HTTPResponse :=
  match resolved with
  | none => .notFound "Not found"
  | some id =>
    if remove id then .noContent else .error 500 "Cannot remove instance"

/-- Embeds `DELETE /instances/:instance/scopes/:scope` (api.go lines
138-144), resolution modelled as in `deleteInstanceRoute`; `remove` is
`ctx.Instance.RemoveScope`. -/
def deleteScopeRoute (resolved : Option String)
    (remove : String → Bool) : HTTPResponse :=
  match resolved with
  | none => .notFound "Not found"
  | some id =>
    if remove id then .noContent else .error 500 "Cannot remove scope"

/-- Embeds `DELETE .../plugins/:plugin` (api.go lines 154-160),
resolution modelled as in `deleteInstanceRoute`; `remove` is
`ctx.Scope.RemovePlugin`. -/
def deletePluginRoute (resolved : Option String)
    (remove : String → Bool) : HTTPResponse :=
  match resolved with
  | none => .notFound "Not found"
  | some id =>
    if remove id then .noContent else .error 500 "Cannot remove plugin"

/-- Embeds `DELETE .../rules/:rule` (api.go lines 170-176), resolution
modelled as in `deleteInstanceRoute`; `remove` is
`ctx.Scope.RemoveRule`. -/
def deleteRuleRoute (resolved : Option String)
    (remove : String → Bool) : HTTPResponse :=
  match resolved with
  | none => .notFound "Not found"
  | some id =>
    if remove id then .noContent else .error 500 "Cannot remove rule"

end manager

/-- A successful association-list lookup exhibits a member pair. -/
theorem lookupA_mem {β : Type} {k : String} {v : β} :
    ∀ {m : List (String × β)}, lookupA k m = some v → (k, v) ∈ m := by
  intro m
  induction m with
  | nil => intro h; simp [lookupA] at h
  | cons p rest ih =>
    intro h
    obtain ⟨k', v'⟩ := p
    simp only [lookupA] at h
    by_cases hk : k = k'
    · rw [if_pos hk] at h
      cases h
      subst hk
      exact List.mem_cons_self _ _
    · rw [if_neg hk] at h
      exact List.mem_cons_of_mem _ (ih h)

/-- With unique keys, membership determines the lookup result. -/
theorem mem_lookupA {β : Type} {k : String} {v : β} :
    ∀ {m : List (String × β)}, (m.map Prod.fst).Nodup → (k, v) ∈ m →
      lookupA k m = some v := by
  intro m
  induction m with
  | nil => intro _ h; simp at h
  | cons p rest ih =>
    intro hnd hmem
    obtain ⟨k', v'⟩ := p
    rw [List.map_cons, List.nodup_cons] at hnd
    rcases List.mem_cons.mp hmem with heq | hmem'
    · cases heq
      simp [lookupA]
    · have hk : k ≠ k' := by
        intro hk
        subst hk
        exact hnd.1 (List.mem_map.mpr ⟨(k, v), hmem', rfl⟩)
      simp only [lookupA, if_neg hk]
      exact ih hnd.2 hmem'

/-- Looking up the name just registered yields the registered `Info`. -/
theorem rule.lookupA_Register_self (r : rule.Info) (m : rule.Registry) :
    lookupA r.name (rule.Register r m) = some r := by
  simp [rule.Register, lookupA]

/-- A range-append loop over an association list collects exactly the
list of its values. -/
theorem foldl_append_values {β : Type} :
    ∀ (m : List (String × β)) (acc : List β),
      m.foldl (fun a p => a ++ [p.2]) acc = acc ++ m.map Prod.snd := by
  intro m
  induction m with
  | nil => intro acc; simp
  | cons x xs ih => intro acc; simp [List.foldl, ih]

end VinxiProxy

open VinxiProxy in
/-- C7: registry round-trip — for every rule `Info` `r`, after
`Register r` the lookups agree with the registration (`Exists` is true,
`Get` returns `r`'s factory, `GetInfo` returns `r`); and for every name
with no registration, `Exists` is false and `Get` returns the nil
factory (`none`). -/
theorem rule_registry_roundtrip (m : rule.Registry) (r : rule.Info)
    (name : String) (habsent : VinxiProxy.lookupA name m = none) :
    rule.Exists r.name (rule.Register r m) = true ∧
    rule.Get r.name (rule.Register r m) = some r.factory ∧
    rule.GetInfo r.name (rule.Register r m) = some r ∧
    rule.Exists name m = false ∧
    rule.Get name m = none := by
  refine ⟨?_, ?_, ?_, ?_, ?_⟩ <;>
    simp [rule.Exists, rule.Get, rule.GetInfo,
      rule.lookupA_Register_self, habsent]

open VinxiProxy in
/-- Witness for C7 at a concrete registry: the empty registry and a
concrete `Info` under the name `"static"`. -/
theorem rule_registry_roundtrip_witness :
    rule.Exists "static" (rule.Register
      ⟨"static", "static rule", [], fun c => ⟨"id1", "static", "", c⟩⟩ []) = true ∧
    rule.Get "static" (rule.Register
      ⟨"static", "static rule", [], fun c => ⟨"id1", "static", "", c⟩⟩ []) =
      some (fun c => ⟨"id1", "static", "", c⟩) ∧
    rule.GetInfo "static" (rule.Register
      ⟨"static", "static rule", [], fun c => ⟨"id1", "static", "", c⟩⟩ []) =
      some ⟨"static", "static rule", [], fun c => ⟨"id1", "static", "", c⟩⟩ ∧
    rule.Exists "missing" [] = false ∧
    rule.Get "missing" [] = none :=
  rule_registry_roundtrip []
    ⟨"static", "static rule", [], fun c => ⟨"id1", "static", "", c⟩⟩
    "missing" rfl

open VinxiProxy in
/-- C1 (evaluation at the failing input): initializing a rule by a name
absent from the registry does not report a recoverable error — `Init`
panics, aborting the process, with the message below. Shown here on the
empty registry and the name `"foo"`. -/
theorem init_panics_on_unregistered_name :
    rule.Init "foo" [] [] =
      .panicked "vinxi: rule \x27foo\x27 does not exists." := rfl

open VinxiProxy in
/-- C10: rule registration is last-write-wins — registering `r2` under
the same name after `r1`, the lookups `Get`, `GetInfo` and `Init`
observe only `r2`; the duplicate silently replaces the earlier entry. -/
theorem rule_register_last_write_wins (m : rule.Registry)
    (r1 r2 : rule.Info) (opts : VinxiProxy.Config)
    (hname : r2.name = r1.name) :
    rule.Get r1.name (rule.Register r2 (rule.Register r1 m)) =
      some r2.factory ∧
    rule.GetInfo r1.name (rule.Register r2 (rule.Register r1 m)) =
      some r2 ∧
    rule.Init r1.name opts (rule.Register r2 (rule.Register r1 m)) =
      .ok (r2.factory opts) := by
  rw [← hname]
  refine ⟨?_, ?_, ?_⟩ <;>
    simp [rule.Get, rule.GetInfo, rule.Init, rule.Exists,
      rule.lookupA_Register_self]

open VinxiProxy in
/-- Witness for C10: two concrete `Info`s registered under `"dup"`; the
second one wins for `Get`, `GetInfo` and `Init`. -/
theorem rule_register_last_write_wins_witness :
    rule.Get "dup" (rule.Register
      ⟨"dup", "second", [], fun _ => ⟨"b", "dup", "second", []⟩⟩
      (rule.Register ⟨"dup", "first", [], fun _ => ⟨"a", "dup", "first", []⟩⟩ [])) =
      some (fun _ => ⟨"b", "dup", "second", []⟩) ∧
    rule.GetInfo "dup" (rule.Register
      ⟨"dup", "second", [], fun _ => ⟨"b", "dup", "second", []⟩⟩
      (rule.Register ⟨"dup", "first", [], fun _ => ⟨"a", "dup", "first", []⟩⟩ [])) =
      some ⟨"dup", "second", [], fun _ => ⟨"b", "dup", "second", []⟩⟩ ∧
    rule.Init "dup" [] (rule.Register
      ⟨"dup", "second", [], fun _ => ⟨"b", "dup", "second", []⟩⟩
      (rule.Register ⟨"dup", "first", [], fun _ => ⟨"a", "dup", "first", []⟩⟩ [])) =
      .ok ⟨"b", "dup", "second", []⟩ :=
  rule_register_last_write_wins []
    ⟨"dup", "first", [], fun _ => ⟨"a", "dup", "first", []⟩⟩
    ⟨"dup", "second", [], fun _ => ⟨"b", "dup", "second", []⟩⟩
    [] rfl

open VinxiProxy in
/-- C3: for every inbound request, `ServeHTTP` first exposes the
original inbound Host under the context key "vinxi.host" and sets the
request URL's host to that inbound Host, and only then runs the root
layer's "request" phase (the trace is exactly these three steps in this
order); and the default forwarder is constructed with host-preservation
(`PassHostHeader`) enabled. -/
theorem serveHTTP_preserves_host_then_runs_request (r : Request) :
    (ServeHTTP r).1 =
      [.setContext "vinxi.host" r.host, .setURLHost r.host,
        .runPhase "request"] ∧
    VinxiProxy.lookupA "vinxi.host" (ServeHTTP r).2.context = some r.host ∧
    (ServeHTTP r).2.url.host = r.host ∧
    DefaultForwarder.passHostHeader = true := by
  refine ⟨rfl, ?_, rfl, rfl⟩
  simp [ServeHTTP, VinxiProxy.lookupA]

open VinxiProxy in
/-- C4: `New()` builds a proxy whose root layer holds exactly the router
at the Tail priority of the "request" phase, whose router has the root
layer as parent, and whose final handler is the default forwarder — so
a request matching no route reaches the forwarder, never `dropped`. -/
theorem new_registers_router_tail_and_forwarder_final :
    New.layer.stack = [(RequestPhase, Priority.tail, Handler.router)] ∧
    New.router.parent = some ParentRef.rootLayer ∧
    New.layer.finalHandler = some (.forwarder DefaultForwarder) ∧
    ∀ req : Request,
      runRequestPhase New req = .final (.forwarder DefaultForwarder) := by
  refine ⟨rfl, rfl, rfl, fun req => ?_⟩
  simp [runRequestPhase, New, layerNew, routerNew, usePriority,
    useFinalHandler, phaseHandlers, runHandlers, findRoute]

open VinxiProxy in
/-- C2: when the named factory is unregistered, `PluginsController.Create`
replies "Plugin not found" and the plugin set is unchanged (`UsePlugin`
is never reached); when the factory rejects the configuration, it
replies with the configuration error and again inserts nothing. -/
theorem plugins_create_no_partial_insertion
    (reg : plugin.Registry) (plugins : List plugin.Plugin)
    (name : String) (params : VinxiProxy.Config) (hname : name ≠ "") :
    (plugin.Get name reg = none →
      manager0.Create reg (some ⟨name, params⟩) plugins =
        (.notFound "Plugin not found", plugins)) ∧
    (∀ (factory : plugin.Factory) (e : String),
      plugin.Get name reg = some factory → factory params = .error e →
      manager0.Create reg (some ⟨name, params⟩) plugins =
        (.badRequest ("Cannot create plugin: " ++ e), plugins)) := by
  constructor
  · intro hget
    simp [manager0.Create, hname, hget]
  · intro factory e hget herr
    simp [manager0.Create, hname, hget, herr]

open VinxiProxy in
/-- Witness for C2 at a concrete registry holding one always-rejecting
factory under "bad": creating "miss" replies not-found, creating "bad"
replies the configuration error; the plugin set stays empty in both. -/
theorem plugins_create_no_partial_insertion_witness :
    manager0.Create
      [("bad", ⟨"bad", "rejects", [], fun _ => Except.error "nope"⟩)]
      (some ⟨"miss", []⟩) [] = (.notFound "Plugin not found", []) ∧
    manager0.Create
      [("bad", ⟨"bad", "rejects", [], fun _ => Except.error "nope"⟩)]
      (some ⟨"bad", []⟩) [] =
      (.badRequest ("Cannot create plugin: " ++ "nope"), []) :=
  ⟨(plugins_create_no_partial_insertion
      [("bad", ⟨"bad", "rejects", [], fun _ => Except.error "nope"⟩)]
      [] "miss" [] (by decide)).1 rfl,
   (plugins_create_no_partial_insertion
      [("bad", ⟨"bad", "rejects", [], fun _ => Except.error "nope"⟩)]
      [] "bad" [] (by decide)).2 (fun _ => Except.error "nope") "nope" rfl rfl⟩

open VinxiProxy in
/-- C5 (evaluation at the failing input): serializing an enabled plugin,
both `createPlugin` implementations leave the JSON `enabled` flag at the
zero value `false`, so it does not equal the plugin's enabled flag. -/
theorem createPlugin_drops_enabled_flag :
    (manager.createPlugin ⟨"p1", "logger", "logs", true, [], []⟩).enabled
      = false ∧
    (manager0.createPlugin ⟨"p1", "logger", "logs", true, [], []⟩).enabled
      = false ∧
    (⟨"p1", "logger", "logs", true, [], []⟩ : plugin.Plugin).enabled
      = true :=
  ⟨rfl, rfl, rfl⟩

open VinxiProxy in
/-- C6: each DELETE handler replies no-content exactly when the removal
mutation returns true; an unresolved (absent) ID yields the not-found
response, a failing mutation yields the 500 removal-failure response,
and the two failure responses are distinct for the caller. -/
theorem delete_routes_distinguish_failures
    (remove : String → Bool) (id : String) :
    (manager.deleteInstanceRoute (some id) remove = .noContent ↔
      remove id = true) ∧
    (manager.deleteScopeRoute (some id) remove = .noContent ↔
      remove id = true) ∧
    (manager.deletePluginRoute (some id) remove = .noContent ↔
      remove id = true) ∧
    (manager.deleteRuleRoute (some id) remove = .noContent ↔
      remove id = true) ∧
    manager.deleteInstanceRoute none remove = .notFound "Not found" ∧
    manager.deleteScopeRoute none remove = .notFound "Not found" ∧
    manager.deletePluginRoute none remove = .notFound "Not found" ∧
    manager.deleteRuleRoute none remove = .notFound "Not found" ∧
    (remove id = false →
      manager.deleteInstanceRoute (some id) remove =
        .error 500 "Cannot remove instance" ∧
      manager.deleteScopeRoute (some id) remove =
        .error 500 "Cannot remove scope" ∧
      manager.deletePluginRoute (some id) remove =
        .error 500 "Cannot remove plugin" ∧
      manager.deleteRuleRoute (some id) remove =
        .error 500 "Cannot remove rule") ∧
    ∀ (m : String) (s : Nat) (n : String),
      manager.HTTPResponse.notFound m ≠ manager.HTTPResponse.error s n := by
  by_cases hr : remove id <;>
    simp [manager.deleteInstanceRoute, manager.deleteScopeRoute,
      manager.deletePluginRoute, manager.deleteRuleRoute, hr]

open VinxiProxy in
/-- Witness for C6 at concrete inputs: a removal that fails yields the
500 response, a removal that succeeds yields no-content. -/
theorem delete_routes_distinguish_failures_witness :
    manager.deletePluginRoute (some "x") (fun _ => false) =
      .error 500 "Cannot remove plugin" ∧
    manager.deleteInstanceRoute (some "x") (fun _ => true) = .noContent :=
  ⟨((delete_routes_distinguish_failures (fun _ => false)
      "x").2.2.2.2.2.2.2.2.1 rfl).2.2.1,
   (delete_routes_distinguish_failures (fun _ => true) "x").1.mpr rfl⟩

open VinxiProxy in
/-- C8: the catalogue enumerates exactly the registered entries — every
Info registered in the rule registry or the plugin registry appears,
and every listed Info is registered under some name. -/
theorem catalog_enumerates_exactly_registered
    (rm : rule.Registry) (pm : plugin.Registry)
    (hr : (rm.map Prod.fst).Nodup) (hp : (pm.map Prod.fst).Nodup) :
    (∀ n i, VinxiProxy.lookupA n rm = some i →
      i ∈ (manager.getCatalog rm pm).rules) ∧
    (∀ i, i ∈ (manager.getCatalog rm pm).rules →
      ∃ n, VinxiProxy.lookupA n rm = some i) ∧
    (∀ n i, VinxiProxy.lookupA n pm = some i →
      i ∈ (manager.getCatalog rm pm).plugins) ∧
    (∀ i, i ∈ (manager.getCatalog rm pm).plugins →
      ∃ n, VinxiProxy.lookupA n pm = some i) := by
  have hrv : (manager.getCatalog rm pm).rules = rm.map Prod.snd := by
    simp [manager.getCatalog, VinxiProxy.foldl_append_values]
  have hpv : (manager.getCatalog rm pm).plugins = pm.map Prod.snd := by
    simp [manager.getCatalog, VinxiProxy.foldl_append_values]
  refine ⟨?_, ?_, ?_, ?_⟩
  · intro n i hl
    rw [hrv]
    exact List.mem_map.mpr ⟨(n, i), VinxiProxy.lookupA_mem hl, rfl⟩
  · intro i hi
    rw [hrv] at hi
    obtain ⟨⟨n, v⟩, hm, hv⟩ := List.mem_map.mp hi
    cases hv
    exact ⟨n, VinxiProxy.mem_lookupA hr hm⟩
  · intro n i hl
    rw [hpv]
    exact List.mem_map.mpr ⟨(n, i), VinxiProxy.lookupA_mem hl, rfl⟩
  · intro i hi
    rw [hpv] at hi
    obtain ⟨⟨n, v⟩, hm, hv⟩ := List.mem_map.mp hi
    cases hv
    exact ⟨n, VinxiProxy.mem_lookupA hp hm⟩

open VinxiProxy in
/-- Witness for C8 at singleton registries: the one registered rule Info
and the one registered plugin Info both appear in the catalogue. -/
theorem catalog_enumerates_exactly_registered_witness :
    (⟨"static", "", [], fun c => ⟨"x", "static", "", c⟩⟩ : rule.Info) ∈
      (manager.getCatalog
        [("static", ⟨"static", "", [], fun c => ⟨"x", "static", "", c⟩⟩)]
        [("auth", ⟨"auth", "", [],
          fun _ => Except.ok ⟨"p", "auth", "", true, [], []⟩⟩)]).rules ∧
    (⟨"auth", "", [],
        fun _ => Except.ok ⟨"p", "auth", "", true, [], []⟩⟩ : plugin.Info) ∈
      (manager.getCatalog
        [("static", ⟨"static", "", [], fun c => ⟨"x", "static", "", c⟩⟩)]
        [("auth", ⟨"auth", "", [],
          fun _ => Except.ok ⟨"p", "auth", "", true, [], []⟩⟩)]).plugins :=
  ⟨(catalog_enumerates_exactly_registered
      [("static", ⟨"static", "", [], fun c => ⟨"x", "static", "", c⟩⟩)]
      [("auth", ⟨"auth", "", [],
        fun _ => Except.ok ⟨"p", "auth", "", true, [], []⟩⟩)]
      (by simp) (by simp)).1 "static" _ rfl,
   (catalog_enumerates_exactly_registered
      [("static", ⟨"static", "", [], fun c => ⟨"x", "static", "", c⟩⟩)]
      [("auth", ⟨"auth", "", [],
        fun _ => Except.ok ⟨"p", "auth", "", true, [], []⟩⟩)]
      (by simp) (by simp)).2.2.1 "auth" _ rfl⟩

open VinxiProxy in
/-- C9 (evaluation at the failing input): on a one-element plugin list
the api.go `createPlugins` hits an index-out-of-range panic (it assigns
`list[i]` on the empty slice), while the part_000 implementation
returns the one-entry list; the two agree only on the empty list. -/
theorem createPlugins_implementations_diverge :
    manager.createPlugins [⟨"p1", "logger", "logs", true, [], []⟩] = none ∧
    manager0.createPlugins [⟨"p1", "logger", "logs", true, [], []⟩] =
      [manager0.createPlugin ⟨"p1", "logger", "logs", true, [], []⟩] ∧
    manager.createPlugins [] = some [] ∧
    manager0.createPlugins [] = [] :=
  ⟨rfl, rfl, rfl, rfl⟩
